import Mathlib

/-!
Verification development for the video2subs pipeline (src/main.py).

The source is a small Python program that extracts audio from a video file
with ffmpeg, transcribes it with a Whisper model, and serializes the timed
segments to SRT and VTT subtitle files.  The definitions below are a shallow
embedding of that program: seconds values are modelled as rationals, the
CPython `datetime.timedelta` normalization and string conversion are modelled
exactly (rounding to the nearest microsecond, ties to even; floor division
into days, seconds and microseconds), Python string primitives used by the
source (`str.zfill`, `str.split` at a dot, single-character `str.replace`,
`str.strip`) are modelled on the character list, Python exceptions become an
inductive type, and the lazy single-pass segment generator becomes an
explicit iterator state threaded through the two writers.
-/

/-- Python exceptions that appear in the program. -/
inductive PyExc where
  | fileNotFound (msg : String)
  | runtimeError (msg : String)
  | valueError (msg : String)
  | unboundLocalError (msg : String)
  | otherError (msg : String)
deriving DecidableEq, Repr

/-- The message carried by an exception, as `str(e)` would render it. -/
def excMsg : PyExc → String
  | .fileNotFound m => m
  | .runtimeError m => m
  | .valueError m => m
  | .unboundLocalError m => m
  | .otherError m => m

/-- Rounding of the fraction `n / d` (with `d > 0`) to the nearest integer
with ties to even, as CPython does when normalizing a float seconds value to
whole microseconds in `datetime.timedelta`.  Euclidean division on `ℤ`
coincides with Python floor division whenever the divisor is positive, so
`n / d` and `n % d` below are the Python `//` and `%`. -/
def roundHalfEvenInt (n d : ℤ) : ℤ :=
  let f := n / d
  let r := n % d
  if 2 * r < d then f
  else if d < 2 * r then f + 1
  else if f % 2 = 0 then f else f + 1

/-- The normalized representation held by `datetime.timedelta`:
`0 ≤ seconds < 86400` and `0 ≤ microseconds < 1000000`, with any sign
pushed into `days`. -/
structure Timedelta where
  days : ℤ
  seconds : ℕ
  microseconds : ℕ
deriving DecidableEq, Repr

/-- Normalization of a total microsecond count into a `Timedelta`.  CPython
uses floor division, which for the positive divisors used here is Euclidean
division on `ℤ`. -/
def timedeltaOfTotalUs (totalUs : ℤ) : Timedelta :=
  { days := totalUs / 86400000000
    seconds := (totalUs % 86400000000).toNat / 1000000
    microseconds := (totalUs % 86400000000).toNat % 1000000 }

/-- `datetime.timedelta(seconds=s)`: the seconds value `s = s.num / s.den`
is converted to whole microseconds `s * 1000000 = (s.num * 1000000) / s.den`,
rounding to nearest with ties to even, then normalized. -/
def timedeltaOfSeconds (s : ℚ) : Timedelta :=
  timedeltaOfTotalUs (roundHalfEvenInt (s.num * 1000000) (s.den : ℤ))

/-- `"%0wd" % n` for a nonnegative `n`: decimal digits left padded with
zeros to width `w`. -/
def padZeros (w : ℕ) (n : ℕ) : String :=
  String.mk (List.replicate (w - (toString n).toList.length) '0' ++ (toString n).toList)

/-- Python `str.zfill`: left fill with zeros up to the requested width,
inserting the padding after a leading sign if one is present. -/
def zfill (s : String) (width : ℕ) : String :=
  let l := s.toList
  if width ≤ l.length then s
  else if l.head? = some '-' ∨ l.head? = some '+' then
    String.mk (l.take 1 ++ List.replicate (width - l.length) '0' ++ l.drop 1)
  else
    String.mk (List.replicate (width - l.length) '0' ++ l)

/-- Python `s.split(".")[0]`: the part of the string before the first dot
(the whole string when no dot occurs). -/
def splitBeforeDot (s : String) : String :=
  String.mk (s.toList.takeWhile (fun c => c ≠ '.'))

/-- Python `s.replace(a, b)` for single-character `a` and `b`: replace every
occurrence. -/
def pyReplaceChar (s : String) (a b : Char) : String :=
  String.mk (s.toList.map (fun c => if c = a then b else c))

/-- Python `str.strip()`: remove leading and trailing whitespace. -/
def pyStrip (s : String) : String :=
  String.mk (((s.toList.dropWhile Char.isWhitespace).reverse.dropWhile Char.isWhitespace).reverse)

/-- CPython `timedelta.__str__`: `H:MM:SS` with unpadded hours, preceded by a
`D day(s), ` prefix when `days` is nonzero, followed by `.UUUUUU` when
`microseconds` is nonzero. -/
def timedeltaStr (t : Timedelta) : String :=
  let ss := t.seconds % 60
  let mm := (t.seconds / 60) % 60
  let hh := t.seconds / 3600
  let base := toString hh ++ ":" ++ padZeros 2 mm ++ ":" ++ padZeros 2 ss
  let withDays :=
    if t.days = 0 then base
    else toString t.days ++ (if t.days = 1 ∨ t.days = -1 then " day, " else " days, ") ++ base
  if t.microseconds = 0 then withDays else withDays ++ "." ++ padZeros 6 t.microseconds

/-- `str(delta).split(".")[0].zfill(8)` from `format_timestamp` in
src/main.py. -/
def timeStrOf (seconds : ℚ) : String :=
  zfill (splitBeforeDot (timedeltaStr (timedeltaOfSeconds seconds))) 8

/-- `str(int(delta.microseconds / 1000)).zfill(3)` from `format_timestamp`
in src/main.py.  For `microseconds < 10^6` the float division followed by
`int` truncation agrees with natural division by 1000. -/
def msStrOf (seconds : ℚ) : String :=
  zfill (toString ((timedeltaOfSeconds seconds).microseconds / 1000)) 3

/-- The string built in the `format_type == "srt"` branch:
`time_str.replace(":", ",") + "," + milliseconds`. -/
def srtTs (seconds : ℚ) : String :=
  pyReplaceChar (timeStrOf seconds) ':' ',' ++ "," ++ msStrOf seconds

/-- The string built in the `format_type == "vtt"` branch:
`time_str + "." + milliseconds`. -/
def vttTs (seconds : ℚ) : String :=
  timeStrOf seconds ++ "." ++ msStrOf seconds

/-- `format_timestamp` from src/main.py. -/
def format_timestamp (seconds : ℚ) (format_type : String) : Except PyExc String :=
  if format_type = "srt" then .ok (srtTs seconds)
  else if format_type = "vtt" then .ok (vttTs seconds)
  else .error (.valueError "format_type must be srt or vtt")

/-- One recognized utterance span, as produced by the transcription engine. -/
structure Segment where
  start : ℚ
  end_ : ℚ
  text : String
deriving DecidableEq, Repr

/-- Metadata for the whole transcription run. -/
structure TranscriptionInfo where
  language : String
  language_probability : ℚ
deriving DecidableEq, Repr

/-- The lazy segment sequence returned by the engine: a forward-only,
non-restartable iterator.  Iterating it consumes `remaining`; a second
iteration of the same generator object yields nothing. -/
structure SegIter where
  remaining : List Segment
deriving DecidableEq, Repr

/-- The sequence of `srt_file.write(...)` calls made by the loop in
`generate_srt`, starting from the given value of `segment_id`. -/
def srtWriteCalls (segment_id : ℕ) : List Segment → List String
  | [] => []
  | seg :: rest =>
      (toString segment_id ++ "\n") ::
      (srtTs seg.start ++ " --> " ++ srtTs seg.end_ ++ "\n") ::
      (pyStrip seg.text ++ "\n\n") ::
      srtWriteCalls (segment_id + 1) rest

/-- The sequence of `vtt_file.write(...)` calls made by the loop in
`generate_vtt` (the `WEBVTT` header is written before the loop). -/
def vttWriteCalls : List Segment → List String
  | [] => []
  | seg :: rest =>
      (vttTs seg.start ++ " --> " ++ vttTs seg.end_ ++ "\n") ::
      (pyStrip seg.text ++ "\n\n") ::
      vttWriteCalls rest

/-- `generate_srt` from src/main.py: writes the numbered blocks in iterator
order and exhausts the iterator.  The first component is the resulting file
content, the second the state of the iterator afterwards. -/
def generate_srt (it : SegIter) : String × SegIter :=
  (String.join (srtWriteCalls 1 it.remaining), ⟨[]⟩)

/-- `generate_vtt` from src/main.py: writes the `WEBVTT` header and a blank
line, then the blocks in iterator order, and exhausts the iterator. -/
def generate_vtt (it : SegIter) : String × SegIter :=
  (String.join ("WEBVTT\n\n" :: vttWriteCalls it.remaining), ⟨[]⟩)

/-- Possible behaviors of `subprocess.run` for the ffmpeg invocation. -/
inductive SubprocessOutcome where
  | success
  | toolMissing
  | nonzeroExit (stderr : String)
deriving DecidableEq, Repr

/-- `extract_audio` from src/main.py: translates the subprocess outcome into
either success, a `FileNotFoundError` with an actionable message, or a
`RuntimeError` carrying the captured stderr text. -/
def extract_audio (o : SubprocessOutcome) : Except PyExc Unit :=
  match o with
  | .success => .ok ()
  | .toolMissing => .error (.fileNotFound "ffmpeg 未找到。请确保已安装 ffmpeg 并将其添加到系统路径。")
  | .nonzeroExit e => .error (.runtimeError ("提取音频失败: " ++ e))

/-- The environment of one `create_subtitles` run: the behavior of the three
external collaborators (model construction, the ffmpeg subprocess, and the
transcription call). -/
structure PipelineEnv where
  loadOutcome : Except PyExc Unit
  ffmpegOutcome : SubprocessOutcome
  transcribeOutcome : Except PyExc (List Segment × TranscriptionInfo)
deriving Repr

/-- Which exceptions the two `except` clauses of `create_subtitles` catch:
`FileNotFoundError` and `RuntimeError`. -/
def caughtByHandlers : PyExc → Bool
  | .fileNotFound _ => true
  | .runtimeError _ => true
  | _ => false

/-- Observable outcome of one `create_subtitles` run.  `srtFile`/`vttFile`
hold the content of `<output_base>.srt`/`.vtt` when that file exists after
the run, `printed` the error messages printed by the `except` clauses,
`raised` the exception (if any) escaping the call, and the Booleans record
the temporary waveform and engine-handle lifecycle. -/
structure PipelineResult where
  srtFile : Option String
  vttFile : Option String
  printed : List String
  raised : Option PyExc
  tempCreated : Bool
  tempDeleted : Bool
  modelBound : Bool
  modelDeleted : Bool
deriving DecidableEq, Repr

/-- `create_subtitles` from src/main.py.  The `try` body loads the model,
opens the scoped temporary waveform, extracts, transcribes, then runs
`generate_srt` and `generate_vtt` on the same single-pass iterator; the two
`except` clauses print caught errors; the `finally` clause executes
`del model`, which raises `UnboundLocalError` when the model assignment never
happened (replacing any exception in flight). -/
def create_subtitles (env : PipelineEnv) : PipelineResult :=
  match env.loadOutcome with
  | .error e =>
      { srtFile := none
        vttFile := none
        printed := if caughtByHandlers e then ["错误: " ++ excMsg e] else []
        raised := some (.unboundLocalError "local variable model referenced before assignment")
        tempCreated := false
        tempDeleted := false
        modelBound := false
        modelDeleted := false }
  | .ok _ =>
      match extract_audio env.ffmpegOutcome with
      | .error e =>
          { srtFile := none
            vttFile := none
            printed := if caughtByHandlers e then ["错误: " ++ excMsg e] else []
            raised := if caughtByHandlers e then none else some e
            tempCreated := true
            tempDeleted := true
            modelBound := true
            modelDeleted := true }
      | .ok _ =>
          match env.transcribeOutcome with
          | .error e =>
              { srtFile := none
                vttFile := none
                printed := if caughtByHandlers e then ["错误: " ++ excMsg e] else []
                raised := if caughtByHandlers e then none else some e
                tempCreated := true
                tempDeleted := true
                modelBound := true
                modelDeleted := true }
          | .ok (segs, _info) =>
              let it0 : SegIter := ⟨segs⟩
              let srtRun := generate_srt it0
              let vttRun := generate_vtt srtRun.2
              { srtFile := some srtRun.1
                vttFile := some vttRun.1
                printed := []
                raised := none
                tempCreated := true
                tempDeleted := true
                modelBound := true
                modelDeleted := true }

/-- `true` when one of pipeline steps 1, 3, 4 (engine loading, audio
extraction, transcription) fails in the given environment. -/
def stepFailure (env : PipelineEnv) : Bool :=
  (match env.loadOutcome with | .error _ => true | .ok _ => false) ||
  (match extract_audio env.ffmpegOutcome with | .error _ => true | .ok _ => false) ||
  (match env.transcribeOutcome with | .error _ => true | .ok _ => false)

/-- Trace of the passthrough-aware orchestrator run: whether the extraction
subprocess was invoked, the temporary waveform lifecycle, and the path handed
to the transcription engine (if transcription was reached). -/
structure PassthroughTrace where
  extractInvoked : Bool
  tempCreated : Bool
  tempDeleted : Bool
  transcribedPath : Option String
deriving DecidableEq, Repr

/-- Modelled from the spec: the companion predicate `is_audio_container` and
the passthrough branch of the orchestrator are not present in src/main.py
(which always extracts); spec sections 4.2 and 4.5 state that when the
predicate reports the input is already a playable audio container, extraction
is skipped, no temporary file is created, and the orchestrator uses the
original path directly, while otherwise the run extracts into a scoped
temporary waveform that is deleted on every exit path. -/
def create_subtitles_passthrough (input_path : String) (input_is_audio : Bool)
    (env : PipelineEnv) : PassthroughTrace :=
  match env.loadOutcome with
  | .error _ => ⟨false, false, false, none⟩
  | .ok _ =>
      if input_is_audio then
        ⟨false, false, false, some input_path⟩
      else
        match extract_audio env.ffmpegOutcome with
        | .error _ => ⟨true, true, true, none⟩
        | .ok _ => ⟨true, true, true, some (input_path ++ ".tmp.wav")⟩

deriving instance DecidableEq for Except

/-- The rational one half, built from the raw constructor so that it
evaluates; equal to the literal 0.5 (see the bridge lemmas below). -/
def ratHalf : ℚ := ⟨1, 2, by decide, by decide⟩

/-- The rational 9/5, built from the raw constructor; equal to 1.8. -/
def ratNineFifths : ℚ := ⟨9, 5, by decide, by decide⟩

/-- The rational 1999/2000, built from the raw constructor; equal to
0.9995. -/
def ratPoint9995 : ℚ := ⟨1999, 2000, by decide, by decide⟩

/-- The rational 14645/4, built from the raw constructor; equal to
3661.25. -/
def rat3661Point25 : ℚ := ⟨14645, 4, by decide, by decide⟩

/-- The integer rational -1, built from the raw constructor. -/
def ratMinusOne : ℚ := ⟨-1, 1, by decide, by decide⟩

/-- The integer rational 86400 (one day in seconds), built from the raw
constructor. -/
def rat86400 : ℚ := ⟨86400, 1, by decide, by decide⟩

theorem ratHalf_eq : ratHalf = (0.5 : ℚ) := by
  rw [ratHalf, Rat.mk'_eq_divInt, Rat.divInt_eq_div]; norm_num

theorem ratNineFifths_eq : ratNineFifths = (1.8 : ℚ) := by
  rw [ratNineFifths, Rat.mk'_eq_divInt, Rat.divInt_eq_div]; norm_num

theorem ratPoint9995_eq : ratPoint9995 = (0.9995 : ℚ) := by
  rw [ratPoint9995, Rat.mk'_eq_divInt, Rat.divInt_eq_div]; norm_num

theorem rat3661Point25_eq : rat3661Point25 = (3661.25 : ℚ) := by
  rw [rat3661Point25, Rat.mk'_eq_divInt, Rat.divInt_eq_div]; norm_num

theorem ratMinusOne_eq : ratMinusOne = (-1 : ℚ) := by
  rw [ratMinusOne, Rat.mk'_eq_divInt, Rat.divInt_eq_div]; norm_num

theorem rat86400_eq : rat86400 = (86400 : ℚ) := by
  rw [rat86400, Rat.mk'_eq_divInt, Rat.divInt_eq_div]; norm_num

/-- A run in which every external collaborator succeeds and the engine
produces the single segment `(" Hello world ", start=0.5, end=1.8)`. -/
def envHello : PipelineEnv :=
  ⟨.ok (), .success,
   .ok ([⟨ratHalf, ratNineFifths, " Hello world "⟩], ⟨"en", ⟨9, 10, by decide, by decide⟩⟩)⟩

/-- C1: the claim states that for a non-empty segment sequence the VTT file
contains a timing line and a text line for each segment that was serialized
into the SRT file.  In the code the single-pass generator is exhausted by
`generate_srt`, so `generate_vtt` iterates an empty iterator: on a successful
run with one segment the SRT file holds the segment but the VTT file is
exactly the header `WEBVTT` plus a blank line, with no segment lines at
all. -/
theorem C1_vtt_empty_after_srt :
    ratHalf = (0.5 : ℚ) ∧ ratNineFifths = (1.8 : ℚ) ∧
    (create_subtitles envHello).srtFile
        = some "1\n00,00,00,500 --> 00,00,01,800\nHello world\n\n" ∧
    (create_subtitles envHello).vttFile = some "WEBVTT\n\n" ∧
    (create_subtitles envHello).vttFile ≠ some
      "WEBVTT\n\n00:00:00.500 --> 00:00:01.800\nHello world\n\n" := by
  refine ⟨ratHalf_eq, ratNineFifths_eq, by decide, by decide, by decide⟩

/-- C2: the claim states that the SRT and VTT renderings of the same seconds
value differ only in the single separator between the seconds and the
milliseconds field.  The code executes `time_str.replace(":", ",")`, which
replaces every colon, so at 3661.25 the SRT string is `01,01,01,250` while
the VTT string is `01:01:01.250`: the two strings differ at the two field
separators as well, not only at the millisecond separator. -/
theorem C2_srt_replaces_all_colons :
    format_timestamp (3661.25 : ℚ) "srt" = .ok "01,01,01,250" ∧
    format_timestamp (3661.25 : ℚ) "vtt" = .ok "01:01:01.250" ∧
    "01,01,01,250" ≠ "01:01:01,250" := by
  rw [← rat3661Point25_eq]
  refine ⟨by decide, by decide, by decide⟩

/-- C3: the claim states that the cleanup step executes without raising on
every exit path, in particular that engine release is a no-op when loading
the engine handle failed.  In the code the `finally` clause runs `del model`;
when `WhisperModel(...)` raised, the local `model` was never bound, so the
cleanup itself raises `UnboundLocalError`: the run below fails at model
loading, prints the caught message, and then the cleanup crash escapes the
call. -/
theorem C3_cleanup_crashes_when_load_fails :
    (create_subtitles ⟨.error (.runtimeError "模型加载失败"), .success,
        .ok ([], ⟨"en", 1⟩)⟩).raised
      = some (.unboundLocalError "local variable model referenced before assignment") ∧
    (create_subtitles ⟨.error (.runtimeError "模型加载失败"), .success,
        .ok ([], ⟨"en", 1⟩)⟩).printed = ["错误: 模型加载失败"] := by
  refine ⟨by decide, by decide⟩

/-- C5: the claim states that the formatter rounds fractional seconds to the
nearest millisecond and carries 1000 milliseconds into the seconds field, so
that 0.9995 formats as `00:00:01,000`.  The code truncates the microsecond
field with `int(delta.microseconds / 1000)`: at 0.9995 the microsecond count
is 999500, the milliseconds render as `999`, and the output is
`00,00,00,999` (with the colon-replacement bug), not `00:00:01,000`. -/
theorem C5_truncates_instead_of_rounding :
    format_timestamp (0.9995 : ℚ) "srt" = .ok "00,00,00,999" ∧
    (0.9995 : ℚ) * 1000000 = 999500 := by
  refine ⟨?_, by norm_num⟩
  rw [← ratPoint9995_eq]
  decide

/-- C6 counterexample: the claim states that a negative seconds value makes
the formatter fail with an `InvalidInput` error rather than return a string.
The code performs no validation: `datetime.timedelta` accepts the negative
value and normalizes it to `-1 day, 23:59:59`, and the call returns that
string decorated as an SRT timestamp instead of failing. -/
theorem C6_negative_returns_string :
    format_timestamp (-1 : ℚ) "srt" = .ok "-1 day, 23,59,59,000" := by
  rw [← ratMinusOne_eq]
  decide

/-- C7 counterexample: the claim states that for every finite nonnegative
seconds value the output is a fixed-width clock string with 2-digit
hour/minute/second fields and a 3-digit millisecond field.  At 86400 seconds
the `timedelta` normalization moves everything into the `days` component and
its string rendering is `1 day, 0:00:00`, so the output is
`1 day, 0:00:00.000` — 18 characters instead of the fixed 12. -/
theorem C7_day_overflow_breaks_shape :
    format_timestamp (86400 : ℚ) "vtt" = .ok "1 day, 0:00:00.000" ∧
    ("1 day, 0:00:00.000" : String).toList.length ≠ 12 := by
  refine ⟨?_, by decide⟩
  rw [← rat86400_eq]
  decide

/-- C10: on the empty segment sequence `generate_srt` writes nothing, so the
SRT file is zero bytes, and `generate_vtt` writes exactly the `WEBVTT` header
line followed by one blank line. -/
theorem C10_empty_sequence_outputs :
    (generate_srt ⟨[]⟩).1 = "" ∧ (generate_vtt ⟨[]⟩).1 = "WEBVTT\n\n" := by
  refine ⟨rfl, rfl⟩

theorem srtWriteCalls_length (k : ℕ) (segs : List Segment) :
    (srtWriteCalls k segs).length = 3 * segs.length := by
  induction segs generalizing k with
  | nil => rfl
  | cons seg rest ih =>
      simp only [srtWriteCalls, List.length_cons, ih]
      omega

theorem srtWriteCalls_ordinal (k : ℕ) (segs : List Segment) (i : ℕ)
    (h : i < segs.length) :
    (srtWriteCalls k segs)[3 * i]? = some (toString (k + i) ++ "\n") := by
  induction segs generalizing k i with
  | nil => simp at h
  | cons seg rest ih =>
      cases i with
      | zero => simp [srtWriteCalls]
      | succ j =>
          have h3 : 3 * (j + 1) = 3 * j + 1 + 1 + 1 := by ring
          have hj : j < rest.length := by
            simpa using Nat.lt_of_succ_lt_succ (by simpa using h)
          have hk : k + 1 + j = k + (j + 1) := by omega
          rw [h3]
          simp only [srtWriteCalls, List.getElem?_cons_succ]
          rw [ih (k + 1) j hj, hk]

/-- C9: the SRT writer emits the ordinal line `toString (i+1)` as the first
write of the i-th emitted block, for every position `i` of the segment
sequence, and emits exactly three writes per segment; the ordinals are
therefore exactly 1..N in sequence order, independent of the timestamps held
in the segments. -/
theorem C9_srt_ordinals (segs : List Segment) (i : ℕ) (h : i < segs.length) :
    (generate_srt ⟨segs⟩).1 = String.join (srtWriteCalls 1 segs) ∧
    (srtWriteCalls 1 segs).length = 3 * segs.length ∧
    (srtWriteCalls 1 segs)[3 * i]? = some (toString (i + 1) ++ "\n") := by
  refine ⟨rfl, srtWriteCalls_length 1 segs, ?_⟩
  have := srtWriteCalls_ordinal 1 segs i h
  rwa [Nat.add_comm 1 i] at this

/-- Witness for C9 at a concrete two-segment sequence with identical
timestamps. -/
theorem C9_witness :
    1 < ([⟨ratHalf, ratHalf, "a"⟩, ⟨ratHalf, ratHalf, "b"⟩] : List Segment).length ∧
    ((generate_srt ⟨[⟨ratHalf, ratHalf, "a"⟩, ⟨ratHalf, ratHalf, "b"⟩]⟩).1
        = String.join (srtWriteCalls 1 [⟨ratHalf, ratHalf, "a"⟩, ⟨ratHalf, ratHalf, "b"⟩]) ∧
      (srtWriteCalls 1 [⟨ratHalf, ratHalf, "a"⟩, ⟨ratHalf, ratHalf, "b"⟩]).length
        = 3 * ([⟨ratHalf, ratHalf, "a"⟩, ⟨ratHalf, ratHalf, "b"⟩] : List Segment).length ∧
      (srtWriteCalls 1 [⟨ratHalf, ratHalf, "a"⟩, ⟨ratHalf, ratHalf, "b"⟩])[3 * 1]?
        = some (toString (1 + 1) ++ "\n")) :=
  ⟨by decide, C9_srt_ordinals [⟨ratHalf, ratHalf, "a"⟩, ⟨ratHalf, ratHalf, "b"⟩] 1 (by decide)⟩

/-- `true` exactly on the `ok` constructor. -/
def exceptIsOk : Except PyExc String → Bool :=
  fun e => match e with | .ok _ => true | .error _ => false

/-- C6 amended: the formatter performs no validation of the seconds value.
For every rational seconds value — negative values included — and each of the
two supported style tokens it returns a string; only an unsupported style
token produces an error (a `ValueError`, not an input-range error). -/
theorem C6_amended_no_validation (s : ℚ) :
    exceptIsOk (format_timestamp s "srt") = true ∧
    exceptIsOk (format_timestamp s "vtt") = true ∧
    ∀ fmt : String, fmt ≠ "srt" → fmt ≠ "vtt" →
      format_timestamp s fmt = .error (.valueError "format_type must be srt or vtt") := by
  refine ⟨rfl, rfl, ?_⟩
  intro fmt h1 h2
  simp [format_timestamp, h1, h2]

/-- Witness for the amended C6 at the concrete input -1 with the unsupported
style token `avi`. -/
theorem C6_amended_witness :
    exceptIsOk (format_timestamp ratMinusOne "srt") = true ∧
    format_timestamp ratMinusOne "avi"
      = .error (.valueError "format_type must be srt or vtt") :=
  ⟨(C6_amended_no_validation ratMinusOne).1,
   (C6_amended_no_validation ratMinusOne).2.2 "avi" (by decide) (by decide)⟩

/-- C4: whenever engine loading, audio extraction or transcription fails, the
run writes neither subtitle file, an error is surfaced (printed by an
`except` clause or propagated to the caller), the temporary waveform is
deleted whenever it was created, and the engine handle is deleted whenever it
was bound. -/
theorem C4_failure_writes_nothing (env : PipelineEnv) (h : stepFailure env = true) :
    (create_subtitles env).srtFile = none ∧
    (create_subtitles env).vttFile = none ∧
    ((create_subtitles env).tempCreated = true → (create_subtitles env).tempDeleted = true) ∧
    ((create_subtitles env).modelBound = true → (create_subtitles env).modelDeleted = true) ∧
    ((create_subtitles env).printed ≠ [] ∨ (create_subtitles env).raised ≠ none) := by
  obtain ⟨lo, fo, tr⟩ := env
  cases lo with
  | error e => simp [create_subtitles]
  | ok u =>
      cases fo with
      | success =>
          cases tr with
          | error e =>
              cases e <;>
                simp [create_subtitles, extract_audio, caughtByHandlers]
          | ok pair =>
              simp [stepFailure, extract_audio] at h
      | toolMissing => simp [create_subtitles, extract_audio, caughtByHandlers]
      | nonzeroExit st => simp [create_subtitles, extract_audio, caughtByHandlers]

/-- A run whose extraction step fails because the decoding tool is absent. -/
def envToolMissing : PipelineEnv :=
  ⟨.ok (), .toolMissing, .ok ([], ⟨"en", ratHalf⟩)⟩

/-- Witness for C4 at the concrete run whose ffmpeg invocation fails. -/
theorem C4_witness :
    stepFailure envToolMissing = true ∧
    ((create_subtitles envToolMissing).srtFile = none ∧
     (create_subtitles envToolMissing).vttFile = none ∧
     ((create_subtitles envToolMissing).tempCreated = true →
        (create_subtitles envToolMissing).tempDeleted = true) ∧
     ((create_subtitles envToolMissing).modelBound = true →
        (create_subtitles envToolMissing).modelDeleted = true) ∧
     ((create_subtitles envToolMissing).printed ≠ [] ∨
        (create_subtitles envToolMissing).raised ≠ none)) :=
  ⟨by decide, C4_failure_writes_nothing envToolMissing (by decide)⟩

/-- C8 (spec-modelled): when the input is classified as an already-playable
audio container, the orchestrator invokes no extraction subprocess, never
creates or deletes a temporary waveform, and any path handed to the
transcription engine is the original input path. -/
theorem C8_passthrough (input_path : String) (env : PipelineEnv) :
    (create_subtitles_passthrough input_path true env).extractInvoked = false ∧
    (create_subtitles_passthrough input_path true env).tempCreated = false ∧
    (create_subtitles_passthrough input_path true env).tempDeleted = false ∧
    ((create_subtitles_passthrough input_path true env).transcribedPath = none ∨
     (create_subtitles_passthrough input_path true env).transcribedPath = some input_path) := by
  obtain ⟨lo, fo, tr⟩ := env
  cases lo with
  | error e => simp [create_subtitles_passthrough]
  | ok u => simp [create_subtitles_passthrough]

theorem roundHalfEvenInt_nonneg (n d : ℤ) (hn : 0 ≤ n) (hd : 0 < d) :
    0 ≤ roundHalfEvenInt n d := by
  have hf : 0 ≤ n / d := Int.ediv_nonneg hn hd.le
  simp only [roundHalfEvenInt]
  split_ifs <;> omega

theorem roundHalfEvenInt_le (n d B : ℤ) (hd : 0 < d) (hn : n ≤ d * B) :
    roundHalfEvenInt n d ≤ B := by
  have hdf : d * (n / d) + n % d = n := Int.ediv_add_emod n d
  have hr0 : 0 ≤ n % d := Int.emod_nonneg n (ne_of_gt hd)
  have hrd : n % d < d := Int.emod_lt_of_pos n hd
  have hfB : n / d ≤ B := by
    by_contra hc
    push_neg at hc
    have h1 : d * (B + 1) ≤ d * (n / d) := by
      apply mul_le_mul_of_nonneg_left _ hd.le
      omega
    have h2 : d * (B + 1) = d * B + d := by ring
    linarith
  have key : d ≤ 2 * (n % d) → n / d + 1 ≤ B := by
    intro hdr
    have hne : ¬ n / d = B := by
      intro heq
      rw [heq] at hdf
      linarith
    omega
  simp only [roundHalfEvenInt]
  split_ifs with h1 h2 h3
  · exact hfB
  · exact key (by omega)
  · exact hfB
  · exact key (by omega)

theorem totalUs_bounds (s : ℚ) (h0 : 0 ≤ s) (h1 : s ≤ 86400 - 1/1000000) :
    0 ≤ roundHalfEvenInt (s.num * 1000000) (s.den : ℤ) ∧
    roundHalfEvenInt (s.num * 1000000) (s.den : ℤ) ≤ 86399999999 := by
  have hdN : 0 < s.den := s.den_pos
  have hd : (0 : ℤ) < (s.den : ℤ) := by exact_mod_cast hdN
  have hn0 : 0 ≤ s.num := Rat.num_nonneg.mpr h0
  refine ⟨roundHalfEvenInt_nonneg _ _ (mul_nonneg hn0 (by norm_num)) hd, ?_⟩
  apply roundHalfEvenInt_le _ _ _ hd
  have hdQ : (0 : ℚ) < (s.den : ℚ) := by exact_mod_cast hdN
  have h1' : s * 1000000 ≤ 86399999999 := by
    have hmul := mul_le_mul_of_nonneg_right h1 (by norm_num : (0 : ℚ) ≤ 1000000)
    have hval : (86400 - 1/1000000 : ℚ) * 1000000 = 86399999999 := by norm_num
    linarith
  have h2 : (s.num : ℚ) * 1000000 ≤ 86399999999 * (s.den : ℚ) := by
    rw [← Rat.num_div_den s] at h1'
    rw [div_mul_eq_mul_div, div_le_iff₀ hdQ] at h1'
    linarith
  have h3 : ((s.num * 1000000 : ℤ) : ℚ) ≤ (((s.den : ℤ) * 86399999999 : ℤ) : ℚ) := by
    push_cast
    linarith
  exact_mod_cast h3

theorem timedeltaOfSeconds_eq (s : ℚ) (h0 : 0 ≤ s) (h1 : s ≤ 86400 - 1/1000000) :
    timedeltaOfSeconds s
      = ⟨0, (roundHalfEvenInt (s.num * 1000000) (s.den : ℤ)).toNat / 1000000,
           (roundHalfEvenInt (s.num * 1000000) (s.den : ℤ)).toNat % 1000000⟩ := by
  obtain ⟨hu0, hu1⟩ := totalUs_bounds s h0 h1
  have h2 : roundHalfEvenInt (s.num * 1000000) (s.den : ℤ) < 86400000000 := by omega
  have hdiv : roundHalfEvenInt (s.num * 1000000) (s.den : ℤ) / 86400000000 = 0 :=
    Int.ediv_eq_zero_of_lt hu0 h2
  have hmod : roundHalfEvenInt (s.num * 1000000) (s.den : ℤ) % 86400000000
      = roundHalfEvenInt (s.num * 1000000) (s.den : ℤ) :=
    Int.emod_eq_of_lt hu0 h2
  simp [timedeltaOfSeconds, timedeltaOfTotalUs, hdiv, hmod]

/-- Characters that are neither a dot, a sign, nor a colon; the decimal
digits emitted by `toString` and `padZeros` all satisfy this. -/
def okChar (c : Char) : Bool :=
  decide (c ≠ '.' ∧ c ≠ '-' ∧ c ≠ '+' ∧ c ≠ ':')

theorem okChar_spec (c : Char) (h : okChar c = true) :
    c ≠ '.' ∧ c ≠ '-' ∧ c ≠ '+' ∧ c ≠ ':' :=
  of_decide_eq_true h

set_option maxRecDepth 4000 in
theorem toString_hours_facts : ∀ h, h < 24 →
    ((toString h).toList.all okChar = true) ∧
    (h < 10 → '0' :: (toString h).toList = (padZeros 2 h).toList ∧
      (toString h).toList.length = 1) ∧
    (10 ≤ h → (toString h).toList = (padZeros 2 h).toList ∧
      (toString h).toList.length = 2) := by
  decide

set_option maxRecDepth 8000 in
theorem padZeros2_facts : ∀ n, n < 100 →
    ((padZeros 2 n).toList.all okChar = true) ∧ (padZeros 2 n).toList.length = 2 := by
  decide

set_option maxRecDepth 100000 in
theorem ms_facts : ∀ m, m < 1000 →
    zfill (toString m) 3 = padZeros 3 m ∧ (padZeros 3 m).toList.length = 3 := by
  decide

theorem data_append (s t : String) : (s ++ t).data = s.data ++ t.data := by
  cases s
  cases t
  rfl

theorem mk_data (s : String) : String.mk s.data = s := by
  cases s
  rfl

theorem takeWhile_all {p : Char → Bool} (l : List Char) (h : ∀ c ∈ l, p c = true) :
    l.takeWhile p = l := by
  induction l with
  | nil => rfl
  | cons c l ih =>
      rw [List.takeWhile_cons, h c (List.mem_cons_self c l)]
      simp only [if_true]
      rw [ih (fun x hx => h x (List.mem_cons_of_mem c hx))]

theorem takeWhile_append_all {p : Char → Bool} (l1 l2 : List Char)
    (h : ∀ c ∈ l1, p c = true) :
    (l1 ++ l2).takeWhile p = l1 ++ l2.takeWhile p := by
  induction l1 with
  | nil => simp
  | cons c l ih =>
      rw [List.cons_append, List.takeWhile_cons, h c (List.mem_cons_self c l)]
      simp only [if_true]
      rw [ih (fun x hx => h x (List.mem_cons_of_mem c hx))]
      rfl

theorem map_keep_of_ne (a b : Char) (l : List Char) (h : ∀ c ∈ l, ¬ c = a) :
    l.map (fun c => if c = a then b else c) = l := by
  induction l with
  | nil => rfl
  | cons c l ih =>
      rw [List.map_cons, if_neg (h c (List.mem_cons_self c l)),
        ih (fun x hx => h x (List.mem_cons_of_mem c hx))]

theorem toList_eq_data (s : String) : s.toList = s.data := rfl

theorem str_ext (a b : String) (h : a.data = b.data) : a = b := by
  cases a
  cases b
  simp only at h
  rw [h]

theorem sep3_data (x y z sep : String) (c : Char) (hc : sep.data = [c]) :
    (x ++ sep ++ y ++ sep ++ z).data = x.data ++ c :: (y.data ++ c :: z.data) := by
  simp [data_append, hc]

theorem takeWhile_cons_false {p : Char → Bool} (a : Char) (l : List Char)
    (h : p a = false) : (a :: l).takeWhile p = [] := by
  rw [List.takeWhile_cons, h]
  simp

theorem splitBeforeDot_no_dot (b : String) (hall : ∀ c ∈ b.data, ¬ c = '.') :
    splitBeforeDot b = b := by
  unfold splitBeforeDot
  rw [toList_eq_data, takeWhile_all b.data (fun c hc => decide_eq_true (hall c hc))]

theorem splitBeforeDot_append_dot (b t : String) (hall : ∀ c ∈ b.data, ¬ c = '.') :
    splitBeforeDot (b ++ "." ++ t) = b := by
  have hdot : ("." : String).data = ['.'] := rfl
  have hdata : (b ++ "." ++ t).data = b.data ++ '.' :: t.data := by
    simp [data_append, hdot]
  unfold splitBeforeDot
  rw [toList_eq_data, hdata,
    takeWhile_append_all b.data _ (fun c hc => decide_eq_true (hall c hc)),
    takeWhile_cons_false '.' t.data (by decide), List.append_nil]

theorem base_no_dot (secs : ℕ) (hs : secs < 86400) :
    ∀ c ∈ (toString (secs / 3600) ++ ":" ++ padZeros 2 ((secs / 60) % 60)
        ++ ":" ++ padZeros 2 (secs % 60)).data, ¬ c = '.' := by
  intro c hc
  rw [sep3_data _ _ _ ":" ':' rfl] at hc
  have h24 : secs / 3600 < 24 := by omega
  have hmm : (secs / 60) % 60 < 100 := by omega
  have hss : secs % 60 < 100 := by omega
  simp only [List.mem_append, List.mem_cons] at hc
  rcases hc with h | h | h | h | h
  · exact (okChar_spec c (List.all_eq_true.mp (toString_hours_facts _ h24).1 c h)).1
  · rw [h]; decide
  · exact (okChar_spec c (List.all_eq_true.mp (padZeros2_facts _ hmm).1 c h)).1
  · rw [h]; decide
  · exact (okChar_spec c (List.all_eq_true.mp (padZeros2_facts _ hss).1 c h)).1

theorem timedeltaStr_shape (secs micros : ℕ) (hs : secs < 86400) (_hm : micros < 1000000) :
    splitBeforeDot (timedeltaStr ⟨0, secs, micros⟩)
      = toString (secs / 3600) ++ ":" ++ padZeros 2 ((secs / 60) % 60)
          ++ ":" ++ padZeros 2 (secs % 60) := by
  by_cases hmz : micros = 0
  · have hts : timedeltaStr ⟨0, secs, micros⟩
        = toString (secs / 3600) ++ ":" ++ padZeros 2 ((secs / 60) % 60)
            ++ ":" ++ padZeros 2 (secs % 60) := by
      simp [timedeltaStr, hmz]
    rw [hts]
    exact splitBeforeDot_no_dot _ (base_no_dot secs hs)
  · have hts : timedeltaStr ⟨0, secs, micros⟩
        = (toString (secs / 3600) ++ ":" ++ padZeros 2 ((secs / 60) % 60)
            ++ ":" ++ padZeros 2 (secs % 60)) ++ "." ++ padZeros 6 micros := by
      simp [timedeltaStr, hmz]
    rw [hts]
    exact splitBeforeDot_append_dot _ _ (base_no_dot secs hs)

theorem zfill_len7 (s : String) (c : Char) (rest : List Char)
    (hs : s.data = c :: rest) (hr : rest.length = 6)
    (hcm : ¬ c = '-') (hcp : ¬ c = '+') :
    zfill s 8 = String.mk ('0' :: c :: rest) := by
  simp only [zfill, toList_eq_data, hs]
  simp [hr, hcm, hcp]

theorem zfill_len8 (s : String) (h8 : s.data.length = 8) : zfill s 8 = s := by
  simp only [zfill, toList_eq_data, h8]
  norm_num

theorem zfill8_shape (secs : ℕ) (hs : secs < 86400) :
    zfill (toString (secs / 3600) ++ ":" ++ padZeros 2 ((secs / 60) % 60)
        ++ ":" ++ padZeros 2 (secs % 60)) 8
      = padZeros 2 (secs / 3600) ++ ":" ++ padZeros 2 ((secs / 60) % 60)
          ++ ":" ++ padZeros 2 (secs % 60) := by
  have h24 : secs / 3600 < 24 := by omega
  have hmm100 : (secs / 60) % 60 < 100 := by omega
  have hss100 : secs % 60 < 100 := by omega
  have hm2 : (padZeros 2 ((secs / 60) % 60)).data.length = 2 := (padZeros2_facts _ hmm100).2
  have hs2 : (padZeros 2 (secs % 60)).data.length = 2 := (padZeros2_facts _ hss100).2
  have hdata := sep3_data (toString (secs / 3600)) (padZeros 2 ((secs / 60) % 60))
      (padZeros 2 (secs % 60)) ":" ':' rfl
  rcases Nat.lt_or_ge (secs / 3600) 10 with h10 | h10
  · obtain ⟨hpad, hlen1⟩ := (toString_hours_facts _ h24).2.1 h10
    have hlen1d : (toString (secs / 3600)).data.length = 1 := hlen1
    obtain ⟨ch, hch⟩ := List.length_eq_one.mp hlen1d
    have hok : okChar ch = true := by
      apply List.all_eq_true.mp (toString_hours_facts _ h24).1
      rw [show (toString (secs / 3600)).toList = [ch] from hch]
      simp
    obtain ⟨-, hchm, hchp, -⟩ := okChar_spec ch hok
    have hsdata : (toString (secs / 3600) ++ ":" ++ padZeros 2 ((secs / 60) % 60)
        ++ ":" ++ padZeros 2 (secs % 60)).data
          = ch :: (':' :: ((padZeros 2 ((secs / 60) % 60)).data
              ++ ':' :: (padZeros 2 (secs % 60)).data)) := by
      rw [hdata, hch]
      rfl
    have hrest : (':' :: ((padZeros 2 ((secs / 60) % 60)).data
        ++ ':' :: (padZeros 2 (secs % 60)).data)).length = 6 := by
      simp [hm2, hs2]
    rw [zfill_len7 _ ch _ hsdata hrest hchm hchp]
    apply str_ext
    rw [sep3_data _ _ _ ":" ':' rfl]
    have hpd : (padZeros 2 (secs / 3600)).data = '0' :: (toString (secs / 3600)).data :=
      hpad.symm
    rw [hpd, hch]
    rfl
  · obtain ⟨hpad, hlen2⟩ := (toString_hours_facts _ h24).2.2 h10
    have hlen2d : (toString (secs / 3600)).data.length = 2 := hlen2
    have h8 : (toString (secs / 3600) ++ ":" ++ padZeros 2 ((secs / 60) % 60)
        ++ ":" ++ padZeros 2 (secs % 60)).data.length = 8 := by
      rw [hdata]
      simp [hlen2d, hm2, hs2]
    rw [zfill_len8 _ h8]
    apply str_ext
    rw [sep3_data _ _ _ ":" ':' rfl, sep3_data _ _ _ ":" ':' rfl]
    have hpd : (toString (secs / 3600)).data = (padZeros 2 (secs / 3600)).data := hpad
    rw [hpd]

theorem padZeros2_no_colon (n : ℕ) (hn : n < 100) :
    ∀ c ∈ (padZeros 2 n).data, ¬ c = ':' := by
  intro c hc
  exact (okChar_spec c (List.all_eq_true.mp (padZeros2_facts _ hn).1 c hc)).2.2.2

theorem replace_colons (a b c : ℕ) (ha : a < 100) (hb : b < 100) (hc : c < 100) :
    pyReplaceChar (padZeros 2 a ++ ":" ++ padZeros 2 b ++ ":" ++ padZeros 2 c) ':' ','
      = padZeros 2 a ++ "," ++ padZeros 2 b ++ "," ++ padZeros 2 c := by
  unfold pyReplaceChar
  rw [toList_eq_data, sep3_data _ _ _ ":" ':' rfl]
  apply str_ext
  rw [sep3_data _ _ _ "," ',' rfl]
  simp only [List.map_append, List.map_cons]
  rw [map_keep_of_ne ':' ',' _ (padZeros2_no_colon a ha),
    map_keep_of_ne ':' ',' _ (padZeros2_no_colon b hb),
    map_keep_of_ne ':' ',' _ (padZeros2_no_colon c hc)]
  simp

/-- C7 amended: for every seconds value between 0 and 86399.999999 (i.e.
strictly below one day after rounding to microseconds) and each supported
style, the output is built from an hours, a minutes and a seconds field each
zero-padded to exactly 2 digits and a milliseconds field zero-padded to
exactly 3 digits, with the corresponding separators; in particular it is a
fixed-width 12-character string. -/
theorem C7_amended_fixed_width (s : ℚ) (h0 : 0 ≤ s) (h1 : s ≤ 86400 - 1/1000000) :
    ∃ hh mm ss ms, hh < 24 ∧ mm < 60 ∧ ss < 60 ∧ ms < 1000 ∧
      (padZeros 2 hh).length = 2 ∧ (padZeros 2 mm).length = 2 ∧
      (padZeros 2 ss).length = 2 ∧ (padZeros 3 ms).length = 3 ∧
      format_timestamp s "vtt"
        = .ok (padZeros 2 hh ++ ":" ++ padZeros 2 mm ++ ":" ++ padZeros 2 ss
            ++ "." ++ padZeros 3 ms) ∧
      format_timestamp s "srt"
        = .ok (padZeros 2 hh ++ "," ++ padZeros 2 mm ++ "," ++ padZeros 2 ss
            ++ "," ++ padZeros 3 ms) := by
  obtain ⟨hu0, hu1⟩ := totalUs_bounds s h0 h1
  have htd := timedeltaOfSeconds_eq s h0 h1
  have hNb : (roundHalfEvenInt (s.num * 1000000) (s.den : ℤ)).toNat ≤ 86399999999 := by
    omega
  set N := (roundHalfEvenInt (s.num * 1000000) (s.den : ℤ)).toNat with hN
  have hs86400 : N / 1000000 < 86400 := by omega
  have hmic : N % 1000000 < 1000000 := by omega
  have hmicros : (timedeltaOfSeconds s).microseconds = N % 1000000 := by
    rw [htd]
  have htime : timeStrOf s
      = padZeros 2 (N / 1000000 / 3600) ++ ":" ++ padZeros 2 (N / 1000000 / 60 % 60)
          ++ ":" ++ padZeros 2 (N / 1000000 % 60) := by
    unfold timeStrOf
    rw [htd, timedeltaStr_shape _ _ hs86400 hmic, zfill8_shape _ hs86400]
  have hms : msStrOf s = padZeros 3 (N % 1000000 / 1000) := by
    unfold msStrOf
    rw [hmicros, (ms_facts (N % 1000000 / 1000) (by omega)).1]
  refine ⟨N / 1000000 / 3600, N / 1000000 / 60 % 60, N / 1000000 % 60,
    N % 1000000 / 1000, by omega, by omega, by omega, by omega,
    (padZeros2_facts _ (by omega)).2, (padZeros2_facts _ (by omega)).2,
    (padZeros2_facts _ (by omega)).2, (ms_facts _ (by omega)).2, ?_, ?_⟩
  · have hv : format_timestamp s "vtt" = .ok (vttTs s) := rfl
    rw [hv, vttTs, htime, hms]
  · have hsr : format_timestamp s "srt" = .ok (srtTs s) := rfl
    rw [hsr, srtTs, htime, hms,
      replace_colons _ _ _ (by omega) (by omega) (by omega)]

/-- Witness for the amended C7 at the concrete input 3661.25 from the spec
examples. -/
theorem C7_amended_witness :
    (0 : ℚ) ≤ 3661.25 ∧ (3661.25 : ℚ) ≤ 86400 - 1/1000000 ∧
    (∃ hh mm ss ms, hh < 24 ∧ mm < 60 ∧ ss < 60 ∧ ms < 1000 ∧
      (padZeros 2 hh).length = 2 ∧ (padZeros 2 mm).length = 2 ∧
      (padZeros 2 ss).length = 2 ∧ (padZeros 3 ms).length = 3 ∧
      format_timestamp (3661.25 : ℚ) "vtt"
        = .ok (padZeros 2 hh ++ ":" ++ padZeros 2 mm ++ ":" ++ padZeros 2 ss
            ++ "." ++ padZeros 3 ms) ∧
      format_timestamp (3661.25 : ℚ) "srt"
        = .ok (padZeros 2 hh ++ "," ++ padZeros 2 mm ++ "," ++ padZeros 2 ss
            ++ "," ++ padZeros 3 ms)) :=
  ⟨by norm_num, by norm_num,
   C7_amended_fixed_width 3661.25 (by norm_num) (by norm_num)⟩
